import Mathlib

/-!
Shallow embedding of collectd's `write_mysql.c` plugin: the connection
lifecycle (`wm_callback_connect` / `wm_callback_disconnect`), the
identifier-resolution-and-caching subsystem (`wm_identifier_to_id` with its
cache and database helpers), the timestamp conversion
(`wm_cdtime_t_to_mysql_time`) and the locked write pipeline
(`wm_write_locked` / `wm_write`).

External effects (the MySQL client library, `localtime_r`, `strdup`) are
modelled by explicit outcome oracles: each fallible library call is given
its success/failure outcome (and, where relevant, its returned data) as an
input, and the C control flow is reproduced over those outcomes.  Connection
handles and prepared-statement handles are modelled by Booleans recording
whether the corresponding pointer is non-NULL.  The identifier table of the
database and the rows inserted into the `data` table are threaded through
as explicit state so that claims about rows written can be stated.
-/

namespace WriteMysql

/-- The pointer fields of `wm_callback_t` that make up the connection state:
`conn`, `data_stmt`, `identifier_stmt_select`, `identifier_stmt_insert`.
`true` models a non-NULL pointer. The identifier cache is kept separately
since `wm_callback_connect` / `wm_callback_disconnect` never touch it. -/
structure ConnSt where
  conn : Bool
  data_stmt : Bool
  identifier_stmt_select : Bool
  identifier_stmt_insert : Bool
  deriving DecidableEq, Repr, Fintype

/-- Outcomes of the MySQL client calls made by `wm_callback_connect`, in the
order the C code performs them: `mysql_init`, `mysql_real_connect`,
`mysql_select_db`, then `mysql_stmt_init` / `mysql_stmt_prepare` for each of
the three statements (data insert, identifier select, identifier insert). -/
structure ConnEnv where
  init_ok : Bool
  real_connect_ok : Bool
  select_db_ok : Bool
  data_stmt_init_ok : Bool
  data_stmt_prepare_ok : Bool
  sel_stmt_init_ok : Bool
  sel_stmt_prepare_ok : Bool
  ins_stmt_init_ok : Bool
  ins_stmt_prepare_ok : Bool
  deriving DecidableEq, Repr

/-- `wm_callback_disconnect` (write_mysql.c:127-154): if `conn` is NULL it
returns 0 leaving the state untouched; otherwise it closes whichever of the
three statements are present, closes the connection, NULLs everything, and
returns 0. -/
def wm_callback_disconnect (cb : ConnSt) : Int × ConnSt :=
  if cb.conn = false then (0, cb)
  else (0, { conn := false, data_stmt := false,
             identifier_stmt_select := false, identifier_stmt_insert := false })

/-- `wm_callback_connect` (write_mysql.c:156-270): no-op when already
connected; otherwise `mysql_init`, `mysql_real_connect`, `mysql_select_db`,
then init+prepare of the three statements in order, calling
`wm_callback_disconnect` before returning −1 on any failure after a
connection handle exists. -/
def wm_callback_connect (env : ConnEnv) (cb : ConnSt) : Int × ConnSt :=
  if cb.conn = true then (0, cb)
  else if env.init_ok = false then (-1, cb)
  else
    -- cb->conn = mysql_init(...) succeeded
    let cb1 : ConnSt := { cb with conn := true }
    if env.real_connect_ok = false then (-1, (wm_callback_disconnect cb1).2)
    else if env.select_db_ok = false then (-1, (wm_callback_disconnect cb1).2)
    else if env.data_stmt_init_ok = false then (-1, (wm_callback_disconnect cb1).2)
    else
      let cb2 : ConnSt := { cb1 with data_stmt := true }
      if env.data_stmt_prepare_ok = false then (-1, (wm_callback_disconnect cb2).2)
      else if env.sel_stmt_init_ok = false then (-1, (wm_callback_disconnect cb2).2)
      else
        let cb3 : ConnSt := { cb2 with identifier_stmt_select := true }
        if env.sel_stmt_prepare_ok = false then (-1, (wm_callback_disconnect cb3).2)
        else if env.ins_stmt_init_ok = false then (-1, (wm_callback_disconnect cb3).2)
        else
          let cb4 : ConnSt := { cb3 with identifier_stmt_insert := true }
          if env.ins_stmt_prepare_ok = false then (-1, (wm_callback_disconnect cb4).2)
          else (0, cb4)

/-- The all-or-nothing connection invariant: each prepared statement handle
is present exactly when the connection handle is. -/
def ConnInv (cb : ConnSt) : Prop :=
  cb.data_stmt = cb.conn ∧ cb.identifier_stmt_select = cb.conn ∧
    cb.identifier_stmt_insert = cb.conn

instance : DecidablePred ConnInv := fun cb => by
  unfold ConnInv; infer_instance

/-- The fully connected state: connection plus all three statements. -/
def connectedSt : ConnSt :=
  { conn := true, data_stmt := true,
    identifier_stmt_select := true, identifier_stmt_insert := true }

/-- The fully disconnected state. -/
def disconnectedSt : ConnSt :=
  { conn := false, data_stmt := false,
    identifier_stmt_select := false, identifier_stmt_insert := false }

/-- A `ConnEnv` in which every MySQL client call succeeds. -/
def envAllOk : ConnEnv :=
  { init_ok := true, real_connect_ok := true, select_db_ok := true,
    data_stmt_init_ok := true, data_stmt_prepare_ok := true,
    sel_stmt_init_ok := true, sel_stmt_prepare_ok := true,
    ins_stmt_init_ok := true, ins_stmt_prepare_ok := true }

/-- A `struct tm` as filled in by `localtime_r`. -/
structure Tm where
  tm_year : Int
  tm_mon : Int
  tm_mday : Int
  tm_hour : Int
  tm_min : Int
  tm_sec : Int
  deriving DecidableEq, Repr

/-- A `MYSQL_TIME` value (only the fields `wm_cdtime_t_to_mysql_time`
assigns; the C code `memset`s the rest to zero). -/
structure MysqlTime where
  year : Int
  month : Int
  day : Int
  hour : Int
  minute : Int
  second : Int
  deriving DecidableEq, Repr

/-- The all-zero `MYSQL_TIME` left behind by the `memset` when
`localtime_r` fails. -/
def mysqlTimeZero : MysqlTime :=
  { year := 0, month := 0, day := 0, hour := 0, minute := 0, second := 0 }

/-- `wm_cdtime_t_to_mysql_time` (write_mysql.c:545-569): the outcome of the
`localtime_r` call is the oracle input `localtime` (`none` models a NULL
return).  On failure the function returns −1 with `*out` still zeroed; on
success it fills in the six calendar fields (`tm_year + 1900`,
`tm_mon + 1`, rest copied) and returns 0. -/
def wm_cdtime_t_to_mysql_time (localtime : Option Tm) : Int × MysqlTime :=
  match localtime with
  | none => (-1, mysqlTimeZero)
  | some stm =>
      (0, { year := stm.tm_year + 1900, month := stm.tm_mon + 1,
            day := stm.tm_mday, hour := stm.tm_hour,
            minute := stm.tm_min, second := stm.tm_sec })

/-- The identity fields of a `value_list_t` (host, plugin, plugin_instance,
type, type_instance); the C struct's fixed-size `char` arrays are modelled
as strings. -/
structure ValueList where
  host : String
  plugin : String
  plugin_instance : String
  vtype : String
  type_instance : String
  deriving DecidableEq, Repr

/-- One data source of a `data_set_t`: its name and the textual form of its
type (`DS_TYPE_TO_STRING`). -/
structure DSrc where
  name : String
  ds_type : String
  deriving DecidableEq, Repr

/-- Modelled from the spec: `FORMAT_VL` (collectd's value-list name
formatter, defined outside this repository's `src/`) serializes the
value-list identity fields into a single deterministic string using a
separator; per the spec the separator is guaranteed not to occur inside
validated field values, so the five fields are joined verbatim with `/`. -/
def format_vl (vl : ValueList) : String :=
  vl.host ++ "/" ++ vl.plugin ++ "/" ++ vl.plugin_instance ++ "/" ++
    vl.vtype ++ "/" ++ vl.type_instance

/-- The cache key built by `wm_identifier_to_id` (write_mysql.c:515-520):
`FORMAT_VL(vl)` followed by `"/"` and the data source's name.  Note that the
data source's type is not an input. -/
def wm_identity_key (vl : ValueList) (dsName : String) : String :=
  format_vl vl ++ "/" ++ dsName

/-- The identifier cache (`c_avl_tree_t` keyed by strings, from
`utils_avltree.c`, outside `src/`), modelled from the spec as an ordered
key→id mapping: an association list with at most one entry per key. -/
abbrev Cache : Type := List (String × Int)

/-- `wm_identifier_cache_lookup` (write_mysql.c:287-299): `c_avl_get`
returns nonzero on a miss, mapped to −1; on a hit the stored id is
returned. -/
def wm_identifier_cache_lookup (cache : Cache) (identifier : String) : Int :=
  match List.lookup identifier cache with
  | none => -1
  | some v => v

/-- `wm_identifier_cache_insert` (write_mysql.c:301-317): `strdup` of the
key may fail (oracle `strdupOk`), giving `ENOMEM` (12) with the cache
unchanged; otherwise the key→id pair is inserted and `c_avl_insert`'s
status returned (0; the caller only ever inserts after a miss). -/
def wm_identifier_cache_insert (strdupOk : Bool) (cache : Cache)
    (identifier : String) (id : Int) : Int × Cache :=
  if strdupOk = false then (12, cache)
  else (0, (identifier, id) :: cache)

/-- One row of the `identifier` table: the seven identity fields as bound
by `wm_identifier_database_insert`. -/
structure IdentRow where
  host : String
  plugin : String
  plugin_instance : String
  vtype : String
  type_instance : String
  data_source_name : String
  data_source_type : String
  deriving DecidableEq, Repr

/-- The row `wm_identifier_database_insert` binds for `(vl, src)`. -/
def mkIdentRow (vl : ValueList) (src : DSrc) : IdentRow :=
  { host := vl.host, plugin := vl.plugin,
    plugin_instance := vl.plugin_instance, vtype := vl.vtype,
    type_instance := vl.type_instance, data_source_name := src.name,
    data_source_type := src.ds_type }

/-- A statement execution issued against the store by the identifier
resolution path. -/
inductive DbEvent where
  | selectExec
  | insertExec
  deriving DecidableEq, Repr

/-- Outcomes of the MySQL client calls made by
`wm_identifier_database_lookup` and `wm_identifier_database_insert`, in
order: for the select — `mysql_stmt_bind_param`, `mysql_stmt_bind_result`,
`mysql_stmt_execute`, `mysql_stmt_store_result`, the row count reported by
`mysql_stmt_num_rows`, `mysql_stmt_fetch`, the fetched id and its NULL
indicator; for the insert — `mysql_stmt_reset`, `mysql_stmt_bind_param`,
`mysql_stmt_execute`, `mysql_stmt_affected_rows` and
`mysql_stmt_insert_id`. -/
structure DbEnv where
  selBindParamOk : Bool
  selBindResultOk : Bool
  selExecOk : Bool
  selStoreResultOk : Bool
  numRows : Nat
  fetchOk : Bool
  fetchedId : Int
  idIsNull : Bool
  resetOk : Bool
  insBindOk : Bool
  insExecOk : Bool
  affectedRows : Int
  insertId : Int
  deriving DecidableEq, Repr

/-- `wm_identifier_database_insert` (write_mysql.c:319-389): reset, bind
the seven fields, execute (a successful execute appends the row to the
`identifier` table), require `mysql_stmt_affected_rows` = 1, then return
`mysql_stmt_insert_id`.  Any failed step returns −1.  The returned event
list records the statement executions issued against the store. -/
def wm_identifier_database_insert (env : DbEnv) (store : List IdentRow)
    (vl : ValueList) (src : DSrc) : Int × List IdentRow × List DbEvent :=
  if env.resetOk = false then (-1, store, [])
  else if env.insBindOk = false then (-1, store, [])
  else if env.insExecOk = false then (-1, store, [DbEvent.insertExec])
  else
    let store1 := store ++ [mkIdentRow vl src]
    if env.affectedRows ≠ 1 then (-1, store1, [DbEvent.insertExec])
    else (env.insertId, store1, [DbEvent.insertExec])

/-- `wm_identifier_database_lookup` (write_mysql.c:391-506): bind the six
select parameters and the result buffer, execute, store the result, then
case on the row count: 0 rows falls through to
`wm_identifier_database_insert`; more than one row is a hard error (−1);
exactly one row is fetched and its id returned unless the id is NULL.
Every failed step returns −1. -/
def wm_identifier_database_lookup (env : DbEnv) (store : List IdentRow)
    (vl : ValueList) (src : DSrc) : Int × List IdentRow × List DbEvent :=
  if env.selBindParamOk = false then (-1, store, [])
  else if env.selBindResultOk = false then (-1, store, [])
  else if env.selExecOk = false then (-1, store, [DbEvent.selectExec])
  else if env.selStoreResultOk = false then (-1, store, [DbEvent.selectExec])
  else if env.numRows = 0 then
    let r := wm_identifier_database_insert env store vl src
    (r.1, r.2.1, DbEvent.selectExec :: r.2.2)
  else if env.numRows > 1 then (-1, store, [DbEvent.selectExec])
  else if env.fetchOk = false then (-1, store, [DbEvent.selectExec])
  else if env.idIsNull = true then (-1, store, [DbEvent.selectExec])
  else (env.fetchedId, store, [DbEvent.selectExec])

/-- Per-resolution oracle: the database call outcomes plus the outcome of
the cache insertion's `strdup`. -/
structure SourceEnv where
  dbEnv : DbEnv
  strdupOk : Bool
  deriving DecidableEq, Repr

/-- `wm_identifier_to_id` (write_mysql.c:508-543): build the cache key from
`FORMAT_VL(vl)` and the data source name, consult the cache and return the
cached id on a hit (issuing nothing against the store); on a miss run the
select-or-insert database path and, when it yields an id, insert it into
the cache best-effort (the insertion status is discarded). -/
def wm_identifier_to_id (senv : SourceEnv) (cache : Cache)
    (store : List IdentRow) (vl : ValueList) (src : DSrc) :
    Int × Cache × List IdentRow × List DbEvent :=
  let identifier := wm_identity_key vl src.name
  let cached := wm_identifier_cache_lookup cache identifier
  if cached ≥ 0 then (cached, cache, store, [])
  else
    let r := wm_identifier_database_lookup senv.dbEnv store vl src
    if r.1 ≥ 0 then
      let ins := wm_identifier_cache_insert senv.strdupOk cache identifier r.1
      (r.1, ins.2, r.2.1, r.2.2)
    else (r.1, cache, r.2.1, r.2.2)

/-- One row of the `data` table as bound by the loop of `wm_write_locked`:
`(identifier_id, timestamp, value)`.  The value is the per-source rate
computed by `uc_get_rate`; it is an opaque payload here (the C `double` is
carried unchanged, modelled as an integer token). -/
structure DataRow where
  identifier_id : Int
  timestamp : MysqlTime
  value : Int
  deriving DecidableEq, Repr

/-- Per-source oracle for the write loop: the resolution outcomes plus the
outcomes of `mysql_stmt_bind_param` and `mysql_stmt_execute` on the data
insert statement. -/
structure WriteSrcEnv where
  senv : SourceEnv
  dataBindOk : Bool
  dataExecOk : Bool
  deriving DecidableEq, Repr

/-- The mutable state threaded through one batch: the identifier cache, the
`identifier` table and the `data` table rows written so far. -/
structure LoopSt where
  cache : Cache
  identStore : List IdentRow
  dataRows : List DataRow
  deriving DecidableEq, Repr

/-- The per-source loop of `wm_write_locked` (write_mysql.c:596-630): for
each data source in order, resolve its identifier — on failure (`< 0`)
`continue` with the next source — then bind `(id, timestamp, rate)` to the
data statement and execute it; a bind or execute failure returns −1
immediately, abandoning the remaining sources.  Falling off the end
returns 0. -/
def wm_write_loop (vt : MysqlTime) (vl : ValueList) :
    List (DSrc × Int × WriteSrcEnv) → LoopSt → Int × LoopSt
  | [], st => (0, st)
  | (src, rate, wenv) :: rest, st =>
      let r := wm_identifier_to_id wenv.senv st.cache st.identStore vl src
      let st1 : LoopSt := { st with cache := r.2.1, identStore := r.2.2.1 }
      if r.1 < 0 then wm_write_loop vt vl rest st1
      else if wenv.dataBindOk = false then (-1, st1)
      else if wenv.dataExecOk = false then (-1, st1)
      else
        wm_write_loop vt vl rest
          { st1 with dataRows := st1.dataRows ++ [⟨r.1, vt, rate⟩] }

/-- `wm_write_locked` (write_mysql.c:571-633): connect (lazily), convert
the batch timestamp, then run the per-source loop.  A connect failure or a
timestamp conversion failure returns that failure with no per-source
processing.  The data sources are given with their rates and per-source
oracles already zipped (`ds->ds[i]` and `rates[i]` advance in lockstep in
the C loop). -/
def wm_write_locked (cenv : ConnEnv) (localtime : Option Tm)
    (vl : ValueList) (sources : List (DSrc × Int × WriteSrcEnv))
    (cst : ConnSt) (st : LoopSt) : Int × ConnSt × LoopSt :=
  let c := wm_callback_connect cenv cst
  if c.1 ≠ 0 then (c.1, c.2, st)
  else
    let t := wm_cdtime_t_to_mysql_time localtime
    if t.1 ≠ 0 then (t.1, c.2, st)
    else
      let r := wm_write_loop t.2 vl sources st
      (r.1, c.2, r.2)

/-- `wm_write` (write_mysql.c:635-655): obtain the rates from
`uc_get_rate` (oracle `ratesOk`; a NULL return aborts with −1 before taking
the connection lock), then run `wm_write_locked` under the lock and return
its status. -/
def wm_write (ratesOk : Bool) (cenv : ConnEnv) (localtime : Option Tm)
    (vl : ValueList) (sources : List (DSrc × Int × WriteSrcEnv))
    (cst : ConnSt) (st : LoopSt) : Int × ConnSt × LoopSt :=
  if ratesOk = false then (-1, cst, st)
  else wm_write_locked cenv localtime vl sources cst st

/-- Decides whether, along the execution of the per-source loop from state
`st`, every source's identifier resolution fails (so every source is
skipped). -/
def allResolveFailB (vl : ValueList) :
    List (DSrc × Int × WriteSrcEnv) → LoopSt → Bool
  | [], _ => true
  | (src, _, wenv) :: rest, st =>
      let r := wm_identifier_to_id wenv.senv st.cache st.identStore vl src
      decide (r.1 < 0) &&
        allResolveFailB vl rest { st with cache := r.2.1, identStore := r.2.2.1 }

/-- A string free of the key separator `/`. -/
def NoSep (s : String) : Prop := '/' ∉ s.data

instance : DecidablePred NoSep := fun s => by
  unfold NoSep; infer_instance

/- Concrete instances used by witnesses and counterexamples. -/

/-- The concrete value list of the spec's scenario in §8. -/
def vlX : ValueList :=
  { host := "host1", plugin := "cpu", plugin_instance := "0",
    vtype := "cpu", type_instance := "idle" }

/-- A gauge data source named `value`. -/
def srcV : DSrc := { name := "value", ds_type := "GAUGE" }

/-- A counter data source named `value`: same name as `srcV`, different
data source type. -/
def srcC : DSrc := { name := "value", ds_type := "COUNTER" }

/-- A data source named `bad`, used as the unresolvable source. -/
def srcB : DSrc := { name := "bad", ds_type := "GAUGE" }

/-- A database environment in which every call succeeds, the select finds
no row and the insert affects one row, assigning id 7. -/
def dbEnvOkInsert : DbEnv :=
  { selBindParamOk := true, selBindResultOk := true, selExecOk := true,
    selStoreResultOk := true, numRows := 0, fetchOk := true,
    fetchedId := 0, idIsNull := false, resetOk := true, insBindOk := true,
    insExecOk := true, affectedRows := 1, insertId := 7 }

/-- A database environment in which the select succeeds but reports two
rows. -/
def dbEnvMulti : DbEnv :=
  { dbEnvOkInsert with numRows := 2 }

/-- A database environment in which the select finds no row and the insert
executes but reports zero affected rows. -/
def dbEnvBadAffected : DbEnv :=
  { dbEnvOkInsert with affectedRows := 0 }

/-- A database environment in which binding the select parameters fails, so
identifier resolution always fails. -/
def dbEnvFail : DbEnv :=
  { dbEnvOkInsert with selBindParamOk := false }

/-- Resolution oracle: database calls succeed, cache insertion succeeds. -/
def senvX : SourceEnv := { dbEnv := dbEnvOkInsert, strdupOk := true }

/-- Resolution oracle: database calls succeed, cache insertion fails. -/
def senvNoDup : SourceEnv := { dbEnv := dbEnvOkInsert, strdupOk := false }

/-- Resolution oracle that always fails. -/
def senvFail : SourceEnv := { dbEnv := dbEnvFail, strdupOk := true }

/-- Write-loop oracle: resolution and data insert succeed. -/
def wenvGood : WriteSrcEnv := { senv := senvX, dataBindOk := true, dataExecOk := true }

/-- Write-loop oracle: resolution fails. -/
def wenvBad : WriteSrcEnv := { senv := senvFail, dataBindOk := true, dataExecOk := true }

/-- Write-loop oracle: resolution succeeds, binding the data statement
parameters fails. -/
def wenvBindFail : WriteSrcEnv := { senv := senvX, dataBindOk := false, dataExecOk := true }

/-- A cache holding id 7 for `vlX`'s source `value`. -/
def cache0 : Cache := [(wm_identity_key vlX "value", 7)]

/-- Loop state whose cache is `cache0`, with empty tables. -/
def st0 : LoopSt := { cache := cache0, identStore := [], dataRows := [] }

/-- The empty loop state. -/
def stEmpty : LoopSt := { cache := [], identStore := [], dataRows := [] }

/-- A concrete `struct tm`. -/
def tmX : Tm :=
  { tm_year := 112, tm_mon := 9, tm_mday := 15, tm_hour := 12,
    tm_min := 34, tm_sec := 56 }

/-- The `MYSQL_TIME` obtained from `tmX`. -/
def vtX : MysqlTime := (wm_cdtime_t_to_mysql_time (some tmX)).2

/-- Under the all-or-nothing invariant, the connection state is exactly one
of the two corner states. -/
theorem connInv_cases (cb : ConnSt) (h : ConnInv cb) :
    cb = connectedSt ∨ cb = disconnectedSt := by
  obtain ⟨h1, h2, h3⟩ := h
  cases cb with
  | mk c d s i =>
    cases c
    · right; simp_all [disconnectedSt]
    · left; simp_all [connectedSt]

/-- C1: whatever the outcomes of the MySQL client calls, `wm_callback_connect`
on a state satisfying the all-or-nothing invariant either returns 0 in the
fully connected state (connection plus all three prepared statements) or
returns −1 in the fully disconnected state (no connection, no statements);
no state with a live connection but fewer than three prepared statements is
ever returned to a caller. -/
theorem connect_all_or_nothing (env : ConnEnv) (cb : ConnSt) (h : ConnInv cb) :
    wm_callback_connect env cb = (0, connectedSt) ∨
      wm_callback_connect env cb = (-1, disconnectedSt) := by
  rcases connInv_cases cb h with hc | hc <;> subst hc
  · left
    simp [wm_callback_connect, connectedSt]
  · rcases env with ⟨i, rc, sd, di, dp, si, sp2, ii, ip⟩
    cases i <;> cases rc <;> cases sd <;> cases di <;> cases dp <;> cases si <;>
      cases sp2 <;> cases ii <;> cases ip <;> decide

/-- Witness for `connect_all_or_nothing` at a concrete environment and the
disconnected state. -/
theorem connect_all_or_nothing_witness :
    ConnInv disconnectedSt ∧
      (wm_callback_connect envAllOk disconnectedSt = (0, connectedSt) ∨
        wm_callback_connect envAllOk disconnectedSt = (-1, disconnectedSt)) :=
  ⟨by decide, connect_all_or_nothing envAllOk disconnectedSt (by decide)⟩

/-- C9: `wm_callback_connect` on an already-connected instance returns 0 and
leaves the state (connection and all three prepared statements) unchanged,
for every outcome environment; and `wm_callback_disconnect` on a
disconnected instance returns 0 and leaves the state unchanged.  Both
operations are therefore idempotent. -/
theorem connect_disconnect_idempotent :
    (∀ (env : ConnEnv) (cb : ConnSt), cb.conn = true →
        wm_callback_connect env cb = (0, cb)) ∧
      (∀ cb : ConnSt, cb.conn = false → wm_callback_disconnect cb = (0, cb)) := by
  constructor
  · intro env cb h
    simp [wm_callback_connect, h]
  · intro cb h
    simp [wm_callback_disconnect, h]

/-- `wm_callback_connect` only ever returns status 0 or −1. -/
theorem connect_status_cases (env : ConnEnv) (cb : ConnSt) :
    (wm_callback_connect env cb).1 = 0 ∨ (wm_callback_connect env cb).1 = -1 := by
  unfold wm_callback_connect
  repeat' split
  all_goals simp

/-- C2: when the calendar conversion of the batch timestamp fails
(`localtime_r` returns NULL), `wm_write_locked` returns an error and the
batch state — in particular the `data` rows — is exactly what it was: zero
data rows are written regardless of the number of data sources. -/
theorem time_failure_aborts_batch (cenv : ConnEnv) (vl : ValueList)
    (sources : List (DSrc × Int × WriteSrcEnv)) (cst : ConnSt) (st : LoopSt) :
    (wm_write_locked cenv none vl sources cst st).1 = -1 ∧
      (wm_write_locked cenv none vl sources cst st).2.2 = st := by
  unfold wm_write_locked
  rcases connect_status_cases cenv cst with h | h <;>
    simp [h, wm_cdtime_t_to_mysql_time]

/-- C5: identifier resolution hard-errors rather than guessing an id: a
select that reaches the row count and finds more than one row returns −1
without issuing the identifier insert and without touching the store, and
an identifier insert whose reported affected-row count differs from 1
returns −1 instead of an id. -/
theorem cardinality_hard_error :
    (∀ (env : DbEnv) (store : List IdentRow) (vl : ValueList) (src : DSrc),
        env.selBindParamOk = true → env.selBindResultOk = true →
        env.selExecOk = true → env.selStoreResultOk = true →
        env.numRows > 1 →
        wm_identifier_database_lookup env store vl src =
          (-1, store, [DbEvent.selectExec])) ∧
      (∀ (env : DbEnv) (store : List IdentRow) (vl : ValueList) (src : DSrc),
        env.resetOk = true → env.insBindOk = true → env.insExecOk = true →
        env.affectedRows ≠ 1 →
        wm_identifier_database_insert env store vl src =
          (-1, store ++ [mkIdentRow vl src], [DbEvent.insertExec])) := by
  constructor
  · intro env store vl src h1 h2 h3 h4 h5
    have h0 : ¬ env.numRows = 0 := by omega
    unfold wm_identifier_database_lookup
    simp [h1, h2, h3, h4, h0, h5]
  · intro env store vl src h1 h2 h3 h4
    unfold wm_identifier_database_insert
    simp [h1, h2, h3, h4]

/-- Witness for `cardinality_hard_error`: a select reporting two rows and an
insert reporting zero affected rows, at concrete inputs. -/
theorem cardinality_hard_error_witness :
    (dbEnvMulti.numRows > 1 ∧
        wm_identifier_database_lookup dbEnvMulti [] vlX srcV =
          (-1, [], [DbEvent.selectExec])) ∧
      (dbEnvBadAffected.affectedRows ≠ 1 ∧
        wm_identifier_database_insert dbEnvBadAffected [] vlX srcV =
          (-1, [] ++ [mkIdentRow vlX srcV], [DbEvent.insertExec])) :=
  ⟨⟨by decide,
      cardinality_hard_error.1 dbEnvMulti [] vlX srcV rfl rfl rfl rfl (by decide)⟩,
    ⟨by decide,
      cardinality_hard_error.2 dbEnvBadAffected [] vlX srcV rfl rfl rfl (by decide)⟩⟩

/-- C7: a resolution whose key is already cached returns the cached id with
the cache, the store and the event list (no select, no insert executed)
unchanged: the memory-only fast path. -/
theorem cache_hit_short_circuit (senv : SourceEnv) (cache : Cache)
    (store : List IdentRow) (vl : ValueList) (src : DSrc)
    (h : wm_identifier_cache_lookup cache (wm_identity_key vl src.name) ≥ 0) :
    wm_identifier_to_id senv cache store vl src =
      (wm_identifier_cache_lookup cache (wm_identity_key vl src.name),
        cache, store, []) := by
  unfold wm_identifier_to_id
  simp [h]

/-- Witness for `cache_hit_short_circuit`: the cached identity of `vlX` and
source `value` resolves from `cache0` without store traffic. -/
theorem cache_hit_short_circuit_witness :
    wm_identifier_cache_lookup cache0 (wm_identity_key vlX srcV.name) ≥ 0 ∧
      wm_identifier_to_id senvX cache0 [] vlX srcV =
        (wm_identifier_cache_lookup cache0 (wm_identity_key vlX srcV.name),
          cache0, [], []) :=
  ⟨by decide, cache_hit_short_circuit senvX cache0 [] vlX srcV (by decide)⟩

/-- C8: on the slow path, a failing cache insertion (`strdup` returning
NULL) is non-fatal: `wm_identifier_to_id` still returns the id the database
path produced, and the cache is left unchanged, so the only consequence is
that the next lookup for that key misses again. -/
theorem cache_insert_failure_nonfatal (senv : SourceEnv) (cache : Cache)
    (store : List IdentRow) (vl : ValueList) (src : DSrc)
    (hmiss : wm_identifier_cache_lookup cache (wm_identity_key vl src.name) < 0)
    (hid : (wm_identifier_database_lookup senv.dbEnv store vl src).1 ≥ 0)
    (hdup : senv.strdupOk = false) :
    wm_identifier_to_id senv cache store vl src =
      ((wm_identifier_database_lookup senv.dbEnv store vl src).1, cache,
        (wm_identifier_database_lookup senv.dbEnv store vl src).2.1,
        (wm_identifier_database_lookup senv.dbEnv store vl src).2.2) := by
  have hm : ¬ wm_identifier_cache_lookup cache (wm_identity_key vl src.name) ≥ 0 := by
    omega
  unfold wm_identifier_to_id wm_identifier_cache_insert
  simp [hm, hid, hdup]

/-- Witness for `cache_insert_failure_nonfatal`: an empty cache, a database
path assigning id 7, and a failing `strdup`. -/
theorem cache_insert_failure_nonfatal_witness :
    wm_identifier_cache_lookup [] (wm_identity_key vlX srcV.name) < 0 ∧
      (wm_identifier_database_lookup senvNoDup.dbEnv [] vlX srcV).1 ≥ 0 ∧
      wm_identifier_to_id senvNoDup [] [] vlX srcV =
        ((wm_identifier_database_lookup senvNoDup.dbEnv [] vlX srcV).1, [],
          (wm_identifier_database_lookup senvNoDup.dbEnv [] vlX srcV).2.1,
          (wm_identifier_database_lookup senvNoDup.dbEnv [] vlX srcV).2.2) :=
  ⟨by decide, by decide,
    cache_insert_failure_nonfatal senvNoDup [] [] vlX srcV (by decide) (by decide) rfl⟩

/-- Witness for `connect_disconnect_idempotent` at the two corner states. -/
theorem connect_disconnect_idempotent_witness :
    connectedSt.conn = true ∧
      wm_callback_connect envAllOk connectedSt = (0, connectedSt) ∧
      disconnectedSt.conn = false ∧
      wm_callback_disconnect disconnectedSt = (0, disconnectedSt) :=
  ⟨rfl, connect_disconnect_idempotent.1 envAllOk connectedSt rfl, rfl,
    connect_disconnect_idempotent.2 disconnectedSt rfl⟩

/-- C3: a failed identifier resolution skips only that source: the loop on
`(src, rate, wenv) :: rest` equals the loop on `rest` from a state whose
data rows are untouched (only the resolution's cache/store side effects are
kept), so processing continues with the next source.  In particular the
concrete two-source batch with one unresolvable and one resolvable source
succeeds and writes exactly the one row of the resolvable source. -/
theorem resolution_failure_skips_source :
    (∀ (vt : MysqlTime) (vl : ValueList) (src : DSrc) (rate : Int)
        (wenv : WriteSrcEnv) (rest : List (DSrc × Int × WriteSrcEnv)) (st : LoopSt),
        (wm_identifier_to_id wenv.senv st.cache st.identStore vl src).1 < 0 →
        wm_write_loop vt vl ((src, rate, wenv) :: rest) st =
          wm_write_loop vt vl rest
            { cache := (wm_identifier_to_id wenv.senv st.cache st.identStore vl src).2.1,
              identStore :=
                (wm_identifier_to_id wenv.senv st.cache st.identStore vl src).2.2.1,
              dataRows := st.dataRows }) ∧
      wm_write_loop vtX vlX [(srcB, 1, wenvBad), (srcV, 2, wenvGood)] st0 =
        (0, { cache := cache0, identStore := [],
              dataRows := [{ identifier_id := 7, timestamp := vtX, value := 2 }] }) := by
  constructor
  · intro vt vl src rate wenv rest st h
    simp [wm_write_loop, h]
  · decide

/-- Witness for `resolution_failure_skips_source` at a concrete failing
resolution. -/
theorem resolution_failure_skips_source_witness :
    (wm_identifier_to_id wenvBad.senv stEmpty.cache stEmpty.identStore vlX srcB).1 < 0 ∧
      wm_write_loop vtX vlX [(srcB, 1, wenvBad), (srcV, 2, wenvGood)] stEmpty =
        wm_write_loop vtX vlX [(srcV, 2, wenvGood)]
          { cache :=
              (wm_identifier_to_id wenvBad.senv stEmpty.cache stEmpty.identStore vlX srcB).2.1,
            identStore :=
              (wm_identifier_to_id wenvBad.senv stEmpty.cache stEmpty.identStore vlX srcB).2.2.1,
            dataRows := stEmpty.dataRows } :=
  ⟨by decide,
    resolution_failure_skips_source.1 vtX vlX srcB 1 wenvBad [(srcV, 2, wenvGood)]
      stEmpty (by decide)⟩

/-- C4: once a source's identifier has been resolved, a failure to bind or
to execute the data-insert statement terminates the loop immediately with
−1, a result that does not depend on the remaining sources (they are never
attempted) and adds no data row; and the write entry point `wm_write`
returns `wm_write_locked`'s status unchanged to its caller. -/
theorem data_insert_failure_terminates_batch :
    (∀ (vt : MysqlTime) (vl : ValueList) (src : DSrc) (rate : Int)
        (wenv : WriteSrcEnv) (rest : List (DSrc × Int × WriteSrcEnv)) (st : LoopSt),
        (wm_identifier_to_id wenv.senv st.cache st.identStore vl src).1 ≥ 0 →
        (wenv.dataBindOk = false ∨ wenv.dataExecOk = false) →
        wm_write_loop vt vl ((src, rate, wenv) :: rest) st =
          (-1,
            { cache := (wm_identifier_to_id wenv.senv st.cache st.identStore vl src).2.1,
              identStore :=
                (wm_identifier_to_id wenv.senv st.cache st.identStore vl src).2.2.1,
              dataRows := st.dataRows })) ∧
      (∀ (cenv : ConnEnv) (localtime : Option Tm) (vl : ValueList)
          (sources : List (DSrc × Int × WriteSrcEnv)) (cst : ConnSt) (st : LoopSt),
        wm_write true cenv localtime vl sources cst st =
          wm_write_locked cenv localtime vl sources cst st) := by
  constructor
  · intro vt vl src rate wenv rest st hres hfail
    have h : ¬ (wm_identifier_to_id wenv.senv st.cache st.identStore vl src).1 < 0 := by
      omega
    rcases hfail with hb | he
    · simp [wm_write_loop, h, hb]
    · cases hb : wenv.dataBindOk <;> simp [wm_write_loop, h, hb, he]
  · intro cenv localtime vl sources cst st
    simp [wm_write]

/-- Witness for `data_insert_failure_terminates_batch`: a resolvable source
whose data-statement bind fails, followed by another source that is never
attempted. -/
theorem data_insert_failure_terminates_batch_witness :
    (wm_identifier_to_id wenvBindFail.senv st0.cache st0.identStore vlX srcV).1 ≥ 0 ∧
      (wenvBindFail.dataBindOk = false ∨ wenvBindFail.dataExecOk = false) ∧
      wm_write_loop vtX vlX [(srcV, 2, wenvBindFail), (srcB, 3, wenvGood)] st0 =
        (-1,
          { cache :=
              (wm_identifier_to_id wenvBindFail.senv st0.cache st0.identStore vlX srcV).2.1,
            identStore :=
              (wm_identifier_to_id wenvBindFail.senv st0.cache st0.identStore vlX srcV).2.2.1,
            dataRows := st0.dataRows }) :=
  ⟨by decide, Or.inl rfl,
    data_insert_failure_terminates_batch.1 vtX vlX srcV 2 wenvBindFail
      [(srcB, 3, wenvGood)] st0 (by decide) (Or.inl rfl)⟩

/-- When every source's resolution fails along the loop, the loop returns 0
and writes no data row. -/
theorem loop_all_skip (vt : MysqlTime) (vl : ValueList)
    (sources : List (DSrc × Int × WriteSrcEnv)) :
    ∀ st : LoopSt, allResolveFailB vl sources st = true →
      (wm_write_loop vt vl sources st).1 = 0 ∧
        (wm_write_loop vt vl sources st).2.dataRows = st.dataRows := by
  induction sources with
  | nil =>
      intro st _
      simp [wm_write_loop]
  | cons x rest ih =>
      obtain ⟨src, rate, wenv⟩ := x
      intro st h
      simp only [allResolveFailB, Bool.and_eq_true, decide_eq_true_eq] at h
      simp only [wm_write_loop]
      simp [h.1]
      exact ih _ h.2

/-- C10: if connecting succeeds and the timestamp converts, a batch every
one of whose data sources fails identifier resolution is reported as a
success: `wm_write_locked` returns 0 even though zero data rows were
written. -/
theorem all_skipped_batch_succeeds (cenv : ConnEnv) (stm : Tm) (vl : ValueList)
    (sources : List (DSrc × Int × WriteSrcEnv)) (cst : ConnSt) (st : LoopSt)
    (hconn : (wm_callback_connect cenv cst).1 = 0)
    (hfail : allResolveFailB vl sources st = true) :
    (wm_write_locked cenv (some stm) vl sources cst st).1 = 0 ∧
      (wm_write_locked cenv (some stm) vl sources cst st).2.2.dataRows =
        st.dataRows := by
  unfold wm_write_locked
  simp [hconn, wm_cdtime_t_to_mysql_time]
  exact loop_all_skip _ vl sources st hfail

/-- Witness for `all_skipped_batch_succeeds`: one unresolvable source, a
fresh connection, a converted timestamp. -/
theorem all_skipped_batch_succeeds_witness :
    (wm_callback_connect envAllOk disconnectedSt).1 = 0 ∧
      allResolveFailB vlX [(srcB, 1, wenvBad)] stEmpty = true ∧
      (wm_write_locked envAllOk (some tmX) vlX [(srcB, 1, wenvBad)]
          disconnectedSt stEmpty).1 = 0 ∧
      (wm_write_locked envAllOk (some tmX) vlX [(srcB, 1, wenvBad)]
          disconnectedSt stEmpty).2.2.dataRows = stEmpty.dataRows :=
  ⟨by decide, by decide,
    all_skipped_batch_succeeds envAllOk tmX vlX [(srcB, 1, wenvBad)]
      disconnectedSt stEmpty (by decide) (by decide)⟩

/-- Splitting at a separator character: if neither prefix contains the
separator, the decompositions agree. -/
theorem sep_split {l1 l2 r1 r2 : List Char} (h1 : '/' ∉ l1) (h2 : '/' ∉ l2)
    (h : l1 ++ '/' :: r1 = l2 ++ '/' :: r2) : l1 = l2 ∧ r1 = r2 := by
  induction l1 generalizing l2 with
  | nil =>
      cases l2 with
      | nil => simpa using h
      | cons c t =>
          simp only [List.nil_append, List.cons_append, List.cons.injEq] at h
          obtain ⟨hc, _⟩ := h
          subst hc
          simp at h2
  | cons c t ih =>
      cases l2 with
      | nil =>
          simp only [List.nil_append, List.cons_append, List.cons.injEq] at h
          obtain ⟨hc, _⟩ := h
          subst hc
          simp at h1
      | cons d u =>
          simp only [List.cons_append, List.cons.injEq] at h
          have h1t : '/' ∉ t := fun hm => h1 (List.mem_cons_of_mem c hm)
          have h2u : '/' ∉ u := fun hm => h2 (List.mem_cons_of_mem d hm)
          obtain ⟨he, hr⟩ := ih h1t h2u h.2
          exact ⟨by rw [h.1, he], hr⟩

/-- The character data of the cache key: the six contributing fields joined
by `/`. -/
theorem key_data (vl : ValueList) (n : String) :
    (wm_identity_key vl n).data =
      vl.host.data ++ '/' :: (vl.plugin.data ++ '/' :: (vl.plugin_instance.data ++
        '/' :: (vl.vtype.data ++ '/' :: (vl.type_instance.data ++ '/' :: n.data)))) := by
  have hsep : ("/" : String).data = ['/'] := rfl
  simp [wm_identity_key, format_vl, String.data_append, hsep, List.append_assoc]

/-- C6, counterexample: the cache key is not built from all seven identity
fields — two identities that agree on the six fields
host/plugin/plugin_instance/type/type_instance/data_source_name but differ
in data_source_type produce the same key, so identities serializing to the
same key need not agree on all seven fields. -/
theorem identity_key_ignores_ds_type_cex :
    srcV.ds_type ≠ srcC.ds_type ∧ srcV.name = srcC.name ∧
      wm_identity_key vlX srcV.name = wm_identity_key vlX srcC.name :=
  ⟨by decide, rfl, rfl⟩

/-- C6, amended: the cache key is a single deterministic string built from
six of the seven identity fields (host, plugin, plugin_instance, type,
type_instance, data_source_name — data_source_type is not an input),
joined with a separator not occurring in validated field values; two
identities serialize to the same key iff they agree on those six fields. -/
theorem identity_key_six_fields (vl1 vl2 : ValueList) (n1 n2 : String)
    (hh1 : NoSep vl1.host) (hp1 : NoSep vl1.plugin)
    (hpi1 : NoSep vl1.plugin_instance) (ht1 : NoSep vl1.vtype)
    (hti1 : NoSep vl1.type_instance) (_hn1 : NoSep n1)
    (hh2 : NoSep vl2.host) (hp2 : NoSep vl2.plugin)
    (hpi2 : NoSep vl2.plugin_instance) (ht2 : NoSep vl2.vtype)
    (hti2 : NoSep vl2.type_instance) (_hn2 : NoSep n2) :
    wm_identity_key vl1 n1 = wm_identity_key vl2 n2 ↔ (vl1 = vl2 ∧ n1 = n2) := by
  constructor
  · intro h
    have hd := congrArg String.data h
    rw [key_data, key_data] at hd
    obtain ⟨e1, hd⟩ := sep_split hh1 hh2 hd
    obtain ⟨e2, hd⟩ := sep_split hp1 hp2 hd
    obtain ⟨e3, hd⟩ := sep_split hpi1 hpi2 hd
    obtain ⟨e4, hd⟩ := sep_split ht1 ht2 hd
    obtain ⟨e5, e6⟩ := sep_split hti1 hti2 hd
    refine ⟨?_, String.ext e6⟩
    cases vl1
    cases vl2
    simp only [ValueList.mk.injEq]
    exact ⟨String.ext e1, String.ext e2, String.ext e3, String.ext e4, String.ext e5⟩
  · intro h
    rw [h.1, h.2]

/-- Witness for `identity_key_six_fields` at the spec's concrete
identity. -/
theorem identity_key_six_fields_witness :
    NoSep vlX.host ∧ NoSep vlX.plugin ∧ NoSep vlX.plugin_instance ∧
      NoSep vlX.vtype ∧ NoSep vlX.type_instance ∧ NoSep srcV.name ∧
      (wm_identity_key vlX srcV.name = wm_identity_key vlX srcV.name ↔
        (vlX = vlX ∧ srcV.name = srcV.name)) :=
  ⟨by decide, by decide, by decide, by decide, by decide, by decide,
    identity_key_six_fields vlX vlX srcV.name srcV.name (by decide) (by decide)
      (by decide) (by decide) (by decide) (by decide) (by decide) (by decide)
      (by decide) (by decide) (by decide) (by decide)⟩

end WriteMysql
